import Mathlib

/-!
Verification of the Bigscity-TDMT data pipeline and LINE embedding model.

The definitions below are a shallow embedding of
`trafficdl/data/dataset/traffic_speed_dataset.py` and
`libcity/model/road_representation/LINE.py`.  Python floats are modelled by
`ℚ` where the code only performs field operations and comparisons, and by `ℝ`
where the code calls `exp`, `log` or `sqrt`.  NumPy arrays are modelled by
(nested) lists; Python list/array slicing and Python `round` (banker's
rounding) are modelled explicitly below.
-/

namespace TDMT

/-- Python `round` on an exact rational: round half to even. -/
def pythonRound (q : ℚ) : ℤ :=
  let f := ⌊q⌋
  let r := q - f
  if r < 1/2 then f
  else if 1/2 < r then f + 1
  else if f % 2 = 0 then f else f + 1

/-- Normalisation of one Python slice endpoint against a list of length `n`:
a negative index counts from the end (clamped at 0), a nonnegative one is
clamped at `n`. -/
def pyIdx (n : ℕ) (v : ℤ) : ℕ :=
  if v < 0 then ((n : ℤ) + v).toNat else min v.toNat n

/-- Python slice `l[i:j]` (step 1); `none` stands for an omitted endpoint. -/
def pySlice {α : Type} (l : List α) (i j : Option ℤ) : List α :=
  let n := l.length
  let st := match i with
    | none => 0
    | some v => pyIdx n v
  let en := match j with
    | none => n
    | some v => pyIdx n v
  (l.drop st).take (en - st)

/-! ### Split manager (`TrafficSpeedDataset._generate_train_val_test`) -/

/-- `num_test = round(num_samples * (1 - train_rate - eval_rate))`. -/
def numTestOf (n : ℕ) (trainRate evalRate : ℚ) : ℤ :=
  pythonRound ((n : ℚ) * (1 - trainRate - evalRate))

/-- `num_train = round(num_samples * train_rate)`. -/
def numTrainOf (n : ℕ) (trainRate : ℚ) : ℤ :=
  pythonRound ((n : ℚ) * trainRate)

/-- `num_val = num_samples - num_test - num_train`. -/
def numValOf (n : ℕ) (trainRate evalRate : ℚ) : ℤ :=
  (n : ℤ) - numTestOf n trainRate evalRate - numTrainOf n trainRate

/-- The split of the windowed samples performed by
`_generate_train_val_test`: `x[:num_train]`, `x[num_train:num_train+num_val]`
and `x[-num_test:]`.  The function mirrors the source exactly: it has no
error path, whatever the configured rates are. -/
def splitTrainValTest {α : Type} (x : List α) (trainRate evalRate : ℚ) :
    List α × List α × List α :=
  let numTest := numTestOf x.length trainRate evalRate
  let numTrain := numTrainOf x.length trainRate
  let numVal := numValOf x.length trainRate evalRate
  (pySlice x none (some numTrain),
   pySlice x (some numTrain) (some (numTrain + numVal)),
   pySlice x (some (-numTest)) none)

/-! ### Window generator (`TrafficSpeedDataset._generate_input_data`) -/

/-- NumPy fancy indexing `df[ixs]`: every index must be in bounds, otherwise
the operation raises (modelled by `none`). -/
def gather {α : Type} (df : List α) : List ℕ → Option (List α)
  | [] => some []
  | i :: is =>
    match df[i]?, gather df is with
    | some v, some vs => some (v :: vs)
    | _, _ => none

/-- One loop iteration of `_generate_input_data`: `x_t = df[t + x_offsets]`,
`y_t = df[t + y_offsets]` with `x_offsets = [-(L_in-1) .. 0]` and
`y_offsets = [1 .. L_out]`. -/
def windowAt {α : Type} (df : List α) (lin lout t : ℕ) :
    Option (List α × List α) :=
  match gather df (List.range' (t + 1 - lin) lin),
        gather df (List.range' (t + 1) lout) with
  | some xs, some ys => some (xs, ys)
  | _, _ => none

/-- Sequencing of an option-valued map over a list (the loop appending to
`x` / `y`, which propagates an indexing error). -/
def optMapM {α β : Type} (f : α → Option β) : List α → Option (List β)
  | [] => some []
  | a :: l =>
    match f a, optMapM f l with
    | some b, some bs => some (b :: bs)
    | _, _ => none

/-- `_generate_input_data` on a time-major series.  `min_t = L_in - 1` and
`max_t = |T - L_out|` as in the source; an empty loop range makes
`np.stack` raise ("need at least one array to stack"), modelled by `none`,
as does `min`/`max` of an empty offset array when a window length is 0. -/
def generateInputData {α : Type} (df : List α) (lin lout : ℕ) :
    Option (List (List α × List α)) :=
  if lin = 0 ∨ lout = 0 then none
  else
    let minT := lin - 1
    let maxT := ((df.length : ℤ) - (lout : ℤ)).natAbs
    match optMapM (windowAt df lin lout) (List.range' minT (maxT - minT)) with
    | none => none
    | some s => if s.length = 0 then none else some s

lemma gather_range' {α : Type} (df : List α) :
    ∀ (len s : ℕ), s + len ≤ df.length →
      gather df (List.range' s len) = some ((df.drop s).take len) := by
  intro len
  induction len with
  | zero => intro s _; simp [gather]
  | succ n ih =>
    intro s h
    have hs : s < df.length := by omega
    rw [List.range'_succ, gather, List.getElem?_eq_getElem hs,
        ih (s + 1) (by omega), List.drop_eq_getElem_cons hs]
    rfl

lemma optMapM_eq_map {α β : Type} (f : α → Option β) (g : α → β) :
    ∀ l : List α, (∀ a ∈ l, f a = some (g a)) → optMapM f l = some (l.map g) := by
  intro l
  induction l with
  | nil => intro _; rfl
  | cons a t ih =>
    intro h
    rw [List.map_cons, optMapM, h a (List.mem_cons_self a t),
        ih fun b hb => h b (List.mem_cons_of_mem a hb)]

lemma windowAt_eq {α : Type} (df : List α) (lin lout t : ℕ)
    (h2 : lin ≤ t + 1) (h3 : t + 1 + lout ≤ df.length) :
    windowAt df lin lout t =
      some ((df.drop (t + 1 - lin)).take lin, (df.drop (t + 1)).take lout) := by
  rw [windowAt, gather_range' df lin (t + 1 - lin) (by omega),
      gather_range' df lout (t + 1) (by omega)]

/-- C4: for window lengths `L_in, L_out ≥ 1` with `L_in + L_out ≤ T`,
`_generate_input_data` produces exactly `T - L_in - L_out + 1` samples in
strictly chronological order; sample `k`'s input covers absolute timesteps
`[k .. k+L_in-1]` and its target covers `[k+L_in .. k+L_in+L_out-1]` (the
input window ends exactly one step before the target window begins).
The boundary case `L_in + L_out = T + 1` allowed by the claim as written
does not produce an empty sample set but raises (see the counterexample). -/
theorem generateInputData_windows {α : Type} (df : List α) (lin lout : ℕ)
    (h1 : 1 ≤ lin) (h2 : 1 ≤ lout) (h3 : lin + lout ≤ df.length) :
    ∃ s : List (List α × List α),
      generateInputData df lin lout = some s ∧
      s.length = df.length - lin - lout + 1 ∧
      ∀ (k : ℕ) (hk : k < s.length),
        s.get ⟨k, hk⟩ = ((df.drop k).take lin, (df.drop (k + lin)).take lout) := by
  have hne : ¬(lin = 0 ∨ lout = 0) := by omega
  have habs : ((df.length : ℤ) - (lout : ℤ)).natAbs = df.length - lout := by omega
  have hmap :
      optMapM (windowAt df lin lout)
          (List.range' (lin - 1) (df.length - lout - (lin - 1))) =
        some ((List.range' (lin - 1) (df.length - lout - (lin - 1))).map fun t =>
          ((df.drop (t + 1 - lin)).take lin, (df.drop (t + 1)).take lout)) := by
    apply optMapM_eq_map
    intro t ht
    obtain ⟨i, hi, rfl⟩ := List.mem_range'.mp ht
    exact windowAt_eq df lin lout _ (by omega) (by omega)
  refine ⟨(List.range' (lin - 1) (df.length - lout - (lin - 1))).map fun t =>
      ((df.drop (t + 1 - lin)).take lin, (df.drop (t + 1)).take lout), ?_, ?_, ?_⟩
  · rw [generateInputData, if_neg hne, habs]
    simp only [hmap]
    rw [if_neg (by simp only [List.length_map, List.length_range']; omega)]
  · simp only [List.length_map, List.length_range']
    omega
  · intro k hk
    simp only [List.length_map, List.length_range'] at hk
    simp only [List.get_eq_getElem, List.getElem_map, List.getElem_range']
    have e1 : lin - 1 + 1 * k + 1 - lin = k := by omega
    have e2 : lin - 1 + 1 * k + 1 = k + lin := by omega
    rw [e1, e2]

/-- C4 counterexample: the claim admits `L_in + L_out = T + 1` (zero
samples), but there `_generate_input_data` raises - `np.stack` on an empty
list - instead of producing an empty sample set: with `T = 4`, `L_in = 3`,
`L_out = 2` the precondition `L_in + L_out ≤ T + 1` holds and no sample set
is produced. -/
theorem generateInputData_boundary_fails :
    3 + 2 ≤ 4 + 1 ∧ generateInputData (List.range 4) 3 2 = none := by
  constructor
  · decide
  · rfl

/-- C4 witness: the spec's own instance, `input_window = 3`,
`output_window = 2` on a 10-step series: 6 samples, sample 0's input covers
steps `[0,1,2]` and its target steps `[3,4]`. -/
theorem generateInputData_windows_witness :
    (generateInputData (List.range 10) 3 2 =
      some [([0,1,2],[3,4]), ([1,2,3],[4,5]), ([2,3,4],[5,6]),
            ([3,4,5],[6,7]), ([4,5,6],[7,8]), ([5,6,7],[8,9])]) ∧
    (1 ≤ 3 ∧ 1 ≤ 2 ∧ 3 + 2 ≤ (List.range 10).length) ∧
    (∃ s : List (List ℕ × List ℕ),
      generateInputData (List.range 10) 3 2 = some s ∧
      s.length = (List.range 10).length - 3 - 2 + 1 ∧
      ∀ (k : ℕ) (hk : k < s.length),
        s.get ⟨k, hk⟩ =
          (((List.range 10).drop k).take 3, ((List.range 10).drop (k + 3)).take 2)) :=
  ⟨by decide, by decide,
   generateInputData_windows (List.range 10) 3 2 (by decide) (by decide) (by decide)⟩

/-- C5 (amended): the split sizes are `num_train = round(n*train_rate)`,
`num_test = round(n*(1 - train_rate - eval_rate))` and
`num_val = n - num_train - num_test` (validation gets the rounding remainder
by subtraction); whenever `num_test ≥ 1` and the other two counts are
nonnegative, the three partitions are contiguous and unshuffled: train is
the earliest `num_train` samples, then validation, then test latest.  (When
`num_test = 0` the claim fails: `x[-0:]` is the whole sample set - see the
counterexample.) -/
theorem splitTrainValTest_policy (x : List ℚ) (tr ev : ℚ)
    (hTest : 1 ≤ numTestOf x.length tr ev)
    (hTrain : 0 ≤ numTrainOf x.length tr)
    (hVal : 0 ≤ numValOf x.length tr ev) :
    numValOf x.length tr ev
        = (x.length : ℤ) - numTestOf x.length tr ev - numTrainOf x.length tr ∧
    splitTrainValTest x tr ev =
      (x.take (numTrainOf x.length tr).toNat,
       (x.drop (numTrainOf x.length tr).toNat).take (numValOf x.length tr ev).toNat,
       x.drop ((numTrainOf x.length tr).toNat + (numValOf x.length tr ev).toNat)) ∧
    (splitTrainValTest x tr ev).1.length = (numTrainOf x.length tr).toNat ∧
    (splitTrainValTest x tr ev).2.1.length = (numValOf x.length tr ev).toNat ∧
    (splitTrainValTest x tr ev).2.2.length = (numTestOf x.length tr ev).toNat := by
  set t := numTestOf x.length tr ev with hts
  set a := numTrainOf x.length tr with has
  set v := numValOf x.length tr ev with hvs
  have hv : v = (x.length : ℤ) - t - a := rfl
  have hs1 : pySlice x none (some a) = x.take a.toNat := by
    simp only [pySlice, pyIdx]
    rw [if_neg (by omega : ¬ a < 0)]
    have e : min a.toNat x.length = a.toNat := by omega
    rw [e]
    simp
  have hs2 : pySlice x (some a) (some (a + v)) = (x.drop a.toNat).take v.toNat := by
    simp only [pySlice, pyIdx]
    rw [if_neg (by omega : ¬ a < 0), if_neg (by omega : ¬ a + v < 0)]
    have e1 : min a.toNat x.length = a.toNat := by omega
    have e2 : min (a + v).toNat x.length = (a + v).toNat := by omega
    have e3 : (a + v).toNat - a.toNat = v.toNat := by omega
    rw [e1, e2, e3]
  have hs3 : pySlice x (some (-t)) none = x.drop (a.toNat + v.toNat) := by
    simp only [pySlice, pyIdx]
    rw [if_pos (by omega : -t < 0)]
    have e : ((x.length : ℤ) + -t).toNat = a.toNat + v.toNat := by omega
    rw [e]
    exact List.take_of_length_le (le_of_eq (List.length_drop _ _))
  have heq : splitTrainValTest x tr ev =
      (x.take a.toNat, (x.drop a.toNat).take v.toNat, x.drop (a.toNat + v.toNat)) := by
    simp only [splitTrainValTest, ← hts, ← has, ← hvs]
    rw [hs1, hs2, hs3]
  refine ⟨hv, heq, ?_, ?_, ?_⟩
  · rw [heq]
    simp only [List.length_take]
    omega
  · rw [heq]
    simp only [List.length_take, List.length_drop]
    omega
  · rw [heq]
    simp only [List.length_drop]
    omega

/-- A concrete list of `n` rational samples `[0, 1, ..., n-1]`. -/
def listQ (n : ℕ) : List ℚ := List.map (Nat.cast : ℕ → ℚ) (List.range n)

/-- C5 counterexample: with 10 samples, `train_rate = 0.7`,
`eval_rate = 0.3` the computed `num_test` is 0, and the test "partition"
`x[-0:]` is the whole sample set (length 10, overlapping train) rather than
the latest 0 samples: the partitions are not contiguous disjoint slices for
every ratio choice. -/
theorem splitTrainValTest_zero_test_counterexample :
    numTestOf 10 (7/10) (3/10) = 0 ∧
    (splitTrainValTest (listQ 10) (7/10) (3/10)).2.2 = listQ 10 ∧
    (splitTrainValTest (listQ 10) (7/10) (3/10)).1.length = 7 := by
  have hlen : (listQ 10).length = 10 := by rw [listQ, List.length_map, List.length_range]
  have ht : numTestOf 10 (7/10) (3/10) = 0 := by
    rw [numTestOf, pythonRound]; norm_num
  have ha : numTrainOf 10 (7/10) = 7 := by
    rw [numTrainOf, pythonRound]; norm_num
  have hv : numValOf 10 (7/10) (3/10) = 3 := by
    rw [numValOf, ht, ha]; norm_num
  refine ⟨ht, ?_, ?_⟩
  · show pySlice (listQ 10) (some (-(numTestOf (listQ 10).length (7/10) (3/10)))) none
        = listQ 10
    rw [hlen, ht]
    simp only [pySlice, pyIdx]
    rw [if_neg (by omega : ¬ -(0:ℤ) < 0)]
    simp
  · show (pySlice (listQ 10) none (some (numTrainOf (listQ 10).length (7/10)))).length = 7
    rw [hlen, ha]
    simp only [pySlice, pyIdx]
    rw [if_neg (by omega : ¬ (7:ℤ) < 0)]
    simp [hlen]

/-- C5 witness: 100 samples with `train_rate = 0.7`, `eval_rate = 0.1`
give `num_train = 70`, `num_test = 20`, `num_val = 100 - 70 - 20 = 10`, and
the split is the contiguous unshuffled decomposition. -/
theorem splitTrainValTest_policy_witness :
    (numTrainOf (listQ 100).length (7/10) = 70 ∧
     numTestOf (listQ 100).length (7/10) (1/10) = 20 ∧
     numValOf (listQ 100).length (7/10) (1/10) = 10) ∧
    (1 ≤ numTestOf (listQ 100).length (7/10) (1/10) ∧
     0 ≤ numTrainOf (listQ 100).length (7/10) ∧
     0 ≤ numValOf (listQ 100).length (7/10) (1/10)) ∧
    (numValOf (listQ 100).length (7/10) (1/10)
        = ((listQ 100).length : ℤ) - numTestOf (listQ 100).length (7/10) (1/10)
            - numTrainOf (listQ 100).length (7/10) ∧
     splitTrainValTest (listQ 100) (7/10) (1/10) =
      ((listQ 100).take (numTrainOf (listQ 100).length (7/10)).toNat,
       ((listQ 100).drop (numTrainOf (listQ 100).length (7/10)).toNat).take
         (numValOf (listQ 100).length (7/10) (1/10)).toNat,
       (listQ 100).drop ((numTrainOf (listQ 100).length (7/10)).toNat
           + (numValOf (listQ 100).length (7/10) (1/10)).toNat)) ∧
     (splitTrainValTest (listQ 100) (7/10) (1/10)).1.length
        = (numTrainOf (listQ 100).length (7/10)).toNat ∧
     (splitTrainValTest (listQ 100) (7/10) (1/10)).2.1.length
        = (numValOf (listQ 100).length (7/10) (1/10)).toNat ∧
     (splitTrainValTest (listQ 100) (7/10) (1/10)).2.2.length
        = (numTestOf (listQ 100).length (7/10) (1/10)).toNat) := by
  have hlen : (listQ 100).length = 100 := by rw [listQ, List.length_map, List.length_range]
  have ht : numTestOf (listQ 100).length (7/10) (1/10) = 20 := by
    rw [hlen, numTestOf, pythonRound]; norm_num
  have ha : numTrainOf (listQ 100).length (7/10) = 70 := by
    rw [hlen, numTrainOf, pythonRound]; norm_num
  have hv : numValOf (listQ 100).length (7/10) (1/10) = 10 := by
    rw [numValOf, ht, ha, hlen]; norm_num
  exact ⟨⟨ha, ht, hv⟩,
    ⟨by rw [ht]; norm_num, by rw [ha]; norm_num, by rw [hv]; norm_num⟩,
    splitTrainValTest_policy (listQ 100) (7/10) (1/10)
      (by rw [ht]; norm_num) (by rw [ha]; norm_num) (by rw [hv]; norm_num)⟩

/-- C2: the split never raises on a misconfigured ratio sum: with 10
samples, `train_rate = 0.8`, `eval_rate = 0.4` (sum 1.2), `num_test` is -2
and the code silently returns train = samples 0-7 (8 samples), val =
samples 8-9, test = `x[-(-2):]` = samples 2-9 (8 samples): overlapping
pieces, 18 samples in total, and no ConfigurationError anywhere. -/
theorem splitTrainValTest_no_error_on_bad_rates :
    splitTrainValTest (List.range 10) (4/5) (2/5) =
      ([0,1,2,3,4,5,6,7], [8,9], [2,3,4,5,6,7,8,9]) := by
  have h1 : numTrainOf (List.range 10).length (4/5) = 8 := by
    rw [List.length_range, numTrainOf, pythonRound]; norm_num
  have h2 : numTestOf (List.range 10).length (4/5) (2/5) = -2 := by
    rw [List.length_range, numTestOf, pythonRound]; norm_num
  have h3 : numValOf (List.range 10).length (4/5) (2/5) = 4 := by
    rw [numValOf, h2, h1, List.length_range]; norm_num
  rw [splitTrainValTest, h1, h2, h3]
  decide

/-! ### Scaler selection (`TrafficSpeedDataset._get_scalar`) -/

/-- A 4-D array `(samples, window, nodes, features)` of rational entries. -/
abbrev Tensor := List (List (List (List ℚ)))

/-- The flattened feature-restricted slice `arr[..., :d]`. -/
def sliceFlatten (t : Tensor) (d : ℕ) : List ℚ :=
  t.flatMap fun a => a.flatMap fun b => b.flatMap fun c => c.take d

/-- `np.mean` over a flattened slice (division by zero yields 0 for the
empty slice, where NumPy would produce `nan`; the empty case plays no role
in the claims below). -/
def meanQ (l : List ℚ) : ℚ := l.sum / l.length

/-- `np.var` (population variance); `np.std` is its square root. -/
def popVar (l : List ℚ) : ℚ := (l.map fun v => (v - meanQ l)^2).sum / l.length

/-- The summary statistics each scaler class is constructed from in
`_get_scalar`.  `none` inside a field models `np.max`/`np.min` raising on an
empty slice. -/
inductive ScalerStats where
  | normalS (mx : Option ℚ)
  | standardS (mean : ℚ) (std : ℝ)
  | minmax01S (mx : Option ℚ) (mn : Option ℚ)
  | minmax11S (mx : Option ℚ) (mn : Option ℚ)
  | noneS

/-- The message of the `ValueError` raised for an unknown scaler type. -/
def scalerErrorMsg : String := "Scaler type error!"

/-- `_get_scalar`: chooses the scaler from `scaler_type` and computes its
statistics from the six split arrays restricted to the first `output_dim`
feature channels.  Branches mirror the source: `normal` takes the max over
all six arrays, `standard` mean/std of `x_train` only, `minmax01`/`minmax11`
max/min over `x_train` and `y_train`, `none` no statistics, anything else
raises `ValueError('Scaler type error!')`. -/
noncomputable def getScalar (scalerType : String) (outputDim : ℕ)
    (xTrain yTrain xVal yVal xTest yTest : Tensor) : Except String ScalerStats :=
  if scalerType = r"normal" then
    Except.ok (ScalerStats.normalS (do
      let m1 ← (sliceFlatten xTrain outputDim).max?
      let m2 ← (sliceFlatten yTrain outputDim).max?
      let m3 ← (sliceFlatten xVal outputDim).max?
      let m4 ← (sliceFlatten yVal outputDim).max?
      let m5 ← (sliceFlatten xTest outputDim).max?
      let m6 ← (sliceFlatten yTest outputDim).max?
      pure (max m1 (max m2 (max m3 (max m4 (max m5 m6)))))))
  else if scalerType = r"standard" then
    Except.ok (ScalerStats.standardS (meanQ (sliceFlatten xTrain outputDim))
      (Real.sqrt ((popVar (sliceFlatten xTrain outputDim) : ℚ) : ℝ)))
  else if scalerType = r"minmax01" then
    Except.ok (ScalerStats.minmax01S
      (do
        let m1 ← (sliceFlatten xTrain outputDim).max?
        let m2 ← (sliceFlatten yTrain outputDim).max?
        pure (max m1 m2))
      (do
        let m1 ← (sliceFlatten xTrain outputDim).min?
        let m2 ← (sliceFlatten yTrain outputDim).min?
        pure (min m1 m2)))
  else if scalerType = r"minmax11" then
    Except.ok (ScalerStats.minmax11S
      (do
        let m1 ← (sliceFlatten xTrain outputDim).max?
        let m2 ← (sliceFlatten yTrain outputDim).max?
        pure (max m1 m2))
      (do
        let m1 ← (sliceFlatten xTrain outputDim).min?
        let m2 ← (sliceFlatten yTrain outputDim).min?
        pure (min m1 m2)))
  else if scalerType = r"none" then
    Except.ok ScalerStats.noneS
  else
    Except.error scalerErrorMsg

/-- The max statistic of a `normal` scaler construction, used to observe
which inputs it depends on. -/
def normalMaxOf : Except String ScalerStats → Option ℚ
  | Except.ok (ScalerStats.normalS m) => m
  | _ => none

/-- C1 (amended): the `standard` scaler's statistics (mean and std) are
computed from `x_train[..., :output_dim]` only, the `minmax01` and
`minmax11` statistics from the training partition only (`x_train` and
`y_train`), and the `none` scaler has no statistics - none of these depends
on the validation or test partitions.  The `normal` scaler however takes
its max over all six arrays, validation and test included (see the
counterexample), so the claim does not hold for every variant. -/
theorem getScalar_train_only_stats :
    (∀ (d : ℕ) (xtr ytr xv yv xt yt ytr' xv' yv' xt' yt' : Tensor),
      getScalar (r"standard") d xtr ytr xv yv xt yt
        = getScalar (r"standard") d xtr ytr' xv' yv' xt' yt') ∧
    (∀ (d : ℕ) (xtr ytr xv yv xt yt xv' yv' xt' yt' : Tensor),
      getScalar (r"minmax01") d xtr ytr xv yv xt yt
        = getScalar (r"minmax01") d xtr ytr xv' yv' xt' yt') ∧
    (∀ (d : ℕ) (xtr ytr xv yv xt yt xv' yv' xt' yt' : Tensor),
      getScalar (r"minmax11") d xtr ytr xv yv xt yt
        = getScalar (r"minmax11") d xtr ytr xv' yv' xt' yt') ∧
    (∀ (d : ℕ) (xtr ytr xv yv xt yt xtr' ytr' xv' yv' xt' yt' : Tensor),
      getScalar (r"none") d xtr ytr xv yv xt yt
        = getScalar (r"none") d xtr' ytr' xv' yv' xt' yt') :=
  ⟨fun _ _ _ _ _ _ _ _ _ _ _ _ => rfl,
   fun _ _ _ _ _ _ _ _ _ _ _ => rfl,
   fun _ _ _ _ _ _ _ _ _ _ _ => rfl,
   fun _ _ _ _ _ _ _ _ _ _ _ _ _ => rfl⟩

/-- C1 counterexample: with `scaler_type = "normal"` the scaler statistic
depends on the test partition: two runs that differ only in `x_test`
(entries 5 vs 1, training entry 3 in both) construct different scalers
(max 5 vs max 3), refuting "no statistic depends on the validation or test
partitions" for every variant. -/
theorem getScalar_normal_uses_test :
    normalMaxOf (getScalar (r"normal") 1
        [[[[3]]]] [[[[0]]]] [[[[0]]]] [[[[0]]]] [[[[5]]]] [[[[0]]]]) = some 5 ∧
    normalMaxOf (getScalar (r"normal") 1
        [[[[3]]]] [[[[0]]]] [[[[0]]]] [[[[0]]]] [[[[1]]]] [[[[0]]]]) = some 3 ∧
    (5 : ℚ) ≠ 3 := by
  refine ⟨?_, ?_, by decide⟩ <;> decide

/-! ### Relation table loading (`TrafficSpeedDataset._load_rel`) and the
order dispatch of `LINE.__init__` -/

/-- The adjacency matrix as a cell map; `none` is the `np.inf` sentinel all
cells are initialised to. -/
def AdjMatrix := ℕ → ℕ → Option ℚ

/-- The `geo_to_ind` dictionary built by `_load_geo`: entity id to dense
index (the last occurrence wins, as for a Python dict built in a loop). -/
def geoToInd (ids : List ℤ) (id : ℤ) : Option ℕ :=
  ids.enum.foldl (fun acc p => if p.2 = id then some p.1 else acc) none

/-- One iteration of the `_load_rel` population loop: a row whose origin or
destination id is not in `geo_to_ind` is skipped (`continue`), otherwise the
cell is set to the row's weight. -/
def loadRelStep (ids : List ℤ) (m : AdjMatrix) (row : ℤ × ℤ × ℚ) : AdjMatrix :=
  match geoToInd ids row.1, geoToInd ids row.2.1 with
  | some i, some j => fun a b => if a = i ∧ b = j then some row.2.2 else m a b
  | _, _ => m

/-- The matrix produced by the `_load_rel` loop over all relation rows,
starting from the all-sentinel matrix. -/
def loadRelMatrix (ids : List ℤ) (rows : List (ℤ × ℤ × ℚ)) : AdjMatrix :=
  rows.foldl (loadRelStep ids) fun _ _ => none

/-- The two embedding orders a `LINE` model can be constructed with. -/
inductive LineOrderT where
  | firstO
  | secondO
deriving DecidableEq

/-- The message of the `ValueError` raised by `LINE.__init__` for an
unknown order. -/
def orderErrorMsg : String := "order mode must be first or second"

/-- The order dispatch in `LINE.__init__`: `'first'` and `'second'` select
the two parameterizations, anything else raises at construction time. -/
def buildLineVariant (order : String) : Except String LineOrderT :=
  if order = r"first" then Except.ok LineOrderT.firstO
  else if order = r"second" then Except.ok LineOrderT.secondO
  else Except.error orderErrorMsg

/-- C9: relation rows whose origin or destination identifier is not in the
entity table are silently skipped (the loop step is the identity, so the
cell keeps whatever value it had - the `np.inf` sentinel for a cell no
valid row sets), while an invalid enum selection is fatal: an unknown
`scaler_type` raises `ValueError('Scaler type error!')` and an embedding
order outside first/second raises
`ValueError('order mode must be first or second')` at construction. -/
theorem skipUnknownRows_and_enum_errors :
    (∀ (ids : List ℤ) (m : AdjMatrix) (row : ℤ × ℤ × ℚ),
      geoToInd ids row.1 = none ∨ geoToInd ids row.2.1 = none →
        loadRelStep ids m row = m) ∧
    (∀ (st : String) (d : ℕ) (xtr ytr xv yv xt yt : Tensor),
      st ∉ ([r"normal", r"standard", r"minmax01", r"minmax11", r"none"] : List String) →
        getScalar st d xtr ytr xv yv xt yt = Except.error scalerErrorMsg) ∧
    (∀ order : String,
      order ∉ ([r"first", r"second"] : List String) →
        buildLineVariant order = Except.error orderErrorMsg) := by
  refine ⟨?_, ?_, ?_⟩
  · intro ids m row h
    rcases h with h | h
    · rw [loadRelStep, h]
    · rw [loadRelStep, h]
      cases geoToInd ids row.1 <;> rfl
  · intro st d xtr ytr xv yv xt yt h
    simp only [List.mem_cons, List.not_mem_nil, or_false, not_or] at h
    obtain ⟨h1, h2, h3, h4, h5⟩ := h
    rw [getScalar, if_neg h1, if_neg h2, if_neg h3, if_neg h4, if_neg h5]
  · intro order h
    simp only [List.mem_cons, List.not_mem_nil, or_false, not_or] at h
    obtain ⟨h1, h2⟩ := h
    rw [buildLineVariant, if_neg h1, if_neg h2]

/-- C9 witness: a relation row `(5, 10, 3)` whose origin id 5 is not among
the entity ids `[10, 20]` leaves the matrix untouched; scaler type `"foo"`
and order `"third"` raise their respective errors. -/
theorem skipUnknownRows_and_enum_errors_witness :
    loadRelStep [10, 20] (loadRelMatrix [10, 20] []) ((5:ℤ), (10:ℤ), (3:ℚ))
        = loadRelMatrix [10, 20] [] ∧
    getScalar (r"foo") 1 [] [] [] [] [] [] = Except.error scalerErrorMsg ∧
    buildLineVariant (r"third") = Except.error orderErrorMsg :=
  ⟨skipUnknownRows_and_enum_errors.1 [10, 20] _ _ (Or.inl (by decide)),
   skipUnknownRows_and_enum_errors.2.1 (r"foo") 1 [] [] [] [] [] [] (by decide),
   skipUnknownRows_and_enum_errors.2.2 (r"third") (by decide)⟩

/-! ### Configuration, cache fingerprint (`__init__`) and the `data_col`
mutation in `_load_dyna` -/

/-- The `data_col` configuration value: either a single column name (the
default is the empty string, meaning "all columns") or a list of column
names. -/
inductive DataCol where
  | strV (s : String)
  | listV (l : List String)
deriving DecidableEq

/-- The configuration surface read by `TrafficSpeedDataset.__init__`, one
field per `config.get` call. -/
structure Config where
  dataset : String
  points_per_hour : ℕ
  input_window : ℕ
  output_window : ℕ
  output_dim : ℕ
  batch_size : ℕ
  num_workers : ℕ
  add_time_in_day : Bool
  add_day_in_week : Bool
  pad_with_last_sample : Bool
  weight_col : String
  data_col : DataCol
  calculate_weight : Bool
  adj_epsilon : ℚ
  train_rate : ℚ
  eval_rate : ℚ
  scaler_type : String
  cache_dataset : Bool
deriving DecidableEq

/-- Python `str` of a bool. -/
def pyBoolStr (b : Bool) : String := if b then r"True" else r"False"

/-- The cache fingerprint `parameters_str` built in `__init__`: the
underscore-joined renderings of dataset, input_window, output_window,
train_rate, eval_rate, scaler, batch_size, add_time_in_day, add_day_in_week
and pad_with_last_sample - and nothing else. -/
def parametersStr (c : Config) : String :=
  c.dataset ++ r"_" ++ toString c.input_window ++ r"_"
    ++ toString c.output_window ++ r"_" ++ toString c.train_rate ++ r"_"
    ++ toString c.eval_rate ++ r"_" ++ c.scaler_type ++ r"_"
    ++ toString c.batch_size ++ r"_" ++ pyBoolStr c.add_time_in_day ++ r"_"
    ++ pyBoolStr c.add_day_in_week ++ r"_" ++ pyBoolStr c.pad_with_last_sample

/-- The cache file path `point_based_{parameters_str}.npz`. -/
def cacheFileName (c : Config) : String :=
  r"./trafficdl/cache/dataset_cache/point_based_" ++ parametersStr c ++ r".npz"

/-- The effect of `_load_dyna` on the configuration together with the
column list it selects from the table (`none` = all columns).  When
`data_col` is a list, `data_col.insert(0, 'time')` /
`data_col.insert(1, 'entity_id')` act on the very list object stored in
`self.data_col`, so the stored configuration value grows; when it is a
nonempty string a fresh list is built and the configuration is untouched. -/
def loadDynaSelect (c : Config) : Config × Option (List String) :=
  match c.data_col with
  | DataCol.listV l =>
      ({ c with data_col := DataCol.listV (r"time" :: r"entity_id" :: l) },
       some (r"time" :: r"entity_id" :: l))
  | DataCol.strV s =>
      if s = r"" then (c, none)
      else (c, some [r"time", r"entity_id", s])

/-- C3 (amended): the fingerprint is a function of exactly the ten
configuration values it concatenates; any two configurations agreeing on
dataset, input_window, output_window, train_rate, eval_rate, scaler_type,
batch_size, add_time_in_day, add_day_in_week and pad_with_last_sample get
the same fingerprint - in particular configurations differing only in
`data_col` or `output_dim`, which do change the generated arrays, collide
(see the counterexample), so a cache hit can silently return arrays
generated under a different effective configuration. -/
theorem parametersStr_determined (c1 c2 : Config)
    (h1 : c1.dataset = c2.dataset)
    (h2 : c1.input_window = c2.input_window)
    (h3 : c1.output_window = c2.output_window)
    (h4 : c1.train_rate = c2.train_rate)
    (h5 : c1.eval_rate = c2.eval_rate)
    (h6 : c1.scaler_type = c2.scaler_type)
    (h7 : c1.batch_size = c2.batch_size)
    (h8 : c1.add_time_in_day = c2.add_time_in_day)
    (h9 : c1.add_day_in_week = c2.add_day_in_week)
    (h10 : c1.pad_with_last_sample = c2.pad_with_last_sample) :
    parametersStr c1 = parametersStr c2 := by
  rw [parametersStr, parametersStr, h1, h2, h3, h4, h5, h6, h7, h8, h9, h10]

/-- A sample configuration; `cfgB` differs from it only in `output_dim`
(2 instead of 1) and `data_col` (a list instead of a string). -/
def cfgA : Config :=
  { dataset := r"METR_LA", points_per_hour := 12, input_window := 12,
    output_window := 12, output_dim := 1, batch_size := 64, num_workers := 1,
    add_time_in_day := false, add_day_in_week := false,
    pad_with_last_sample := true, weight_col := r"cost",
    data_col := DataCol.strV r"traffic_speed", calculate_weight := false,
    adj_epsilon := 1/10, train_rate := 7/10, eval_rate := 1/10,
    scaler_type := r"normal", cache_dataset := true }

/-- The collision partner of `cfgA`: different `output_dim` and `data_col`,
same fingerprint. -/
def cfgB : Config :=
  { dataset := r"METR_LA", points_per_hour := 12, input_window := 12,
    output_window := 12, output_dim := 2, batch_size := 64, num_workers := 1,
    add_time_in_day := false, add_day_in_week := false,
    pad_with_last_sample := true, weight_col := r"cost",
    data_col := DataCol.listV [r"traffic_speed"], calculate_weight := false,
    adj_epsilon := 1/10, train_rate := 7/10, eval_rate := 1/10,
    scaler_type := r"normal", cache_dataset := true }

/-- C3 counterexample: `cfgA` and `cfgB` are different configurations
(different `output_dim` and `data_col`) whose fingerprints are the same
string, and the difference is effective: on the same loaded arrays their
scaler statistics differ (max over the first 1 vs first 2 feature
channels), so fingerprint equality does not separate configurations that
produce different scaled arrays. -/
theorem parametersStr_collision :
    cfgA ≠ cfgB ∧
    parametersStr cfgA = parametersStr cfgB ∧
    normalMaxOf (getScalar cfgA.scaler_type cfgA.output_dim
        [[[[1, 5]]]] [[[[0, 0]]]] [[[[0, 0]]]] [[[[0, 0]]]] [[[[0, 0]]]] [[[[0, 0]]]])
      ≠ normalMaxOf (getScalar cfgB.scaler_type cfgB.output_dim
        [[[[1, 5]]]] [[[[0, 0]]]] [[[[0, 0]]]] [[[[0, 0]]]] [[[[0, 0]]]] [[[[0, 0]]]]) := by
  refine ⟨?_, rfl, by decide⟩
  intro h
  exact absurd (congrArg Config.output_dim h) (by decide)

/-- C3 witness: the fingerprint-agreement theorem applied to the concrete
pair `cfgA`, `cfgB`. -/
theorem parametersStr_determined_witness :
    (cfgA.dataset = cfgB.dataset ∧ cfgA.input_window = cfgB.input_window ∧
     cfgA.output_window = cfgB.output_window ∧ cfgA.train_rate = cfgB.train_rate ∧
     cfgA.eval_rate = cfgB.eval_rate ∧ cfgA.scaler_type = cfgB.scaler_type ∧
     cfgA.batch_size = cfgB.batch_size ∧
     cfgA.add_time_in_day = cfgB.add_time_in_day ∧
     cfgA.add_day_in_week = cfgB.add_day_in_week ∧
     cfgA.pad_with_last_sample = cfgB.pad_with_last_sample) ∧
    parametersStr cfgA = parametersStr cfgB :=
  ⟨⟨rfl, rfl, rfl, rfl, rfl, rfl, rfl, rfl, rfl, rfl⟩,
   parametersStr_determined cfgA cfgB rfl rfl rfl rfl rfl rfl rfl rfl rfl rfl⟩

/-- C10: when `data_col` is a list, `_load_dyna` inserts `'time'` and
`'entity_id'` at the front of that same list object, so loading mutates the
stored configuration value (`self.data_col` becomes
`['time', 'entity_id'] + data_col`) while every other configuration field
is unchanged (the record update touches only `data_col`); a second
invocation under the same object therefore selects
`['time', 'entity_id', 'time', 'entity_id'] + data_col`. -/
theorem loadDyna_mutates_data_col (c : Config) (l : List String)
    (h : c.data_col = DataCol.listV l) :
    (loadDynaSelect c).1
        = { c with data_col := DataCol.listV (r"time" :: r"entity_id" :: l) } ∧
    (loadDynaSelect c).2 = some (r"time" :: r"entity_id" :: l) ∧
    (loadDynaSelect (loadDynaSelect c).1).2
        = some (r"time" :: r"entity_id" :: r"time" :: r"entity_id" :: l) := by
  cases c
  cases h
  exact ⟨rfl, rfl, rfl⟩

/-- C10 witness: a configuration whose `data_col` is the one-element list
`['traffic_speed']`: the first load stores
`['time', 'entity_id', 'traffic_speed']` back into the configuration and a
second load selects `['time', 'entity_id', 'time', 'entity_id',
'traffic_speed']`. -/
theorem loadDyna_mutates_data_col_witness :
    cfgB.data_col = DataCol.listV [r"traffic_speed"] ∧
    ((loadDynaSelect cfgB).1
        = { cfgB with
            data_col := DataCol.listV [r"time", r"entity_id", r"traffic_speed"] } ∧
     (loadDynaSelect cfgB).2 = some [r"time", r"entity_id", r"traffic_speed"] ∧
     (loadDynaSelect (loadDynaSelect cfgB).1).2
        = some [r"time", r"entity_id", r"time", r"entity_id", r"traffic_speed"]) :=
  ⟨rfl, loadDyna_mutates_data_col cfgB [r"traffic_speed"] rfl⟩

/-! ### Gaussian adjacency weighting
(`TrafficSpeedDataset._calculate_adjacency_matrix`) -/

/-- `adj_mx[~np.isinf(adj_mx)].flatten()`: the finite (non-sentinel)
entries of the matrix in row-major order. -/
def finiteEntries (m : List (List (Option ℚ))) : List ℚ :=
  (m.map fun r => r.filterMap id).flatten

/-- `distances.std()`: the population standard deviation of the finite
entries.  (For an empty or constant distance list this is 0, a case the
claims exclude by requiring the standard deviation to be nonzero; NumPy
produces `nan` respectively divides by zero there.) -/
noncomputable def adjStd (m : List (List (Option ℚ))) : ℝ :=
  Real.sqrt ((popVar (finiteEntries m) : ℚ) : ℝ)

/-- `np.exp(-np.square(adj_mx / std))` followed by zeroing every weight
strictly below `adj_epsilon`.  A sentinel (`inf`) cell turns into
`exp(-inf) = 0` in floating point, modelled directly as 0. -/
noncomputable def calculateAdjacencyMatrix (m : List (List (Option ℚ)))
    (eps : ℚ) : List (List ℝ) :=
  m.map fun r => r.map fun c =>
    let w : ℝ := match c with
      | some v => Real.exp (-((v : ℝ) / adjStd m)^2)
      | none => 0
    if w < (eps : ℝ) then 0 else w

/-- C6: the Gaussian weighting computes its standard deviation from the
non-sentinel entries only (`adjStd`), replaces every cell `v` - sentinel
cells included - by `exp(-(v/std)^2)` and zeroes every weight strictly
below `adj_epsilon`; a sentinel cell becomes 0 whatever the threshold, and
a finite distance equal to the computed standard deviation has weight
`exp(-1)` before thresholding. -/
theorem calculateAdjacencyMatrix_gauss (m : List (List (Option ℚ))) (eps : ℚ)
    (hstd : adjStd m ≠ 0) :
    (∀ (i j : ℕ) (r : List (Option ℚ)), m[i]? = some r → r[j]? = some none →
      ((calculateAdjacencyMatrix m eps)[i]?.bind fun s => s[j]?) = some 0) ∧
    (∀ (i j : ℕ) (r : List (Option ℚ)) (v : ℚ),
      m[i]? = some r → r[j]? = some (some v) →
      ((calculateAdjacencyMatrix m eps)[i]?.bind fun s => s[j]?)
        = some (if Real.exp (-((v : ℝ) / adjStd m)^2) < (eps : ℝ) then 0
                else Real.exp (-((v : ℝ) / adjStd m)^2))) ∧
    (∀ v : ℚ, (v : ℝ) = adjStd m →
      Real.exp (-((v : ℝ) / adjStd m)^2) = Real.exp (-1)) := by
  refine ⟨?_, ?_, ?_⟩
  · intro i j r hi hj
    simp only [calculateAdjacencyMatrix, List.getElem?_map, hi, Option.map_some',
      Option.some_bind, hj]
    simp
  · intro i j r v hi hj
    simp only [calculateAdjacencyMatrix, List.getElem?_map, hi, Option.map_some',
      Option.some_bind, hj]
  · intro v hv
    rw [hv, div_self hstd]
    norm_num

/-- The adjacency matrix of the spec's testable property: finite distances
`1` and `-1` (std 1) next to a sentinel cell. -/
def mGauss : List (List (Option ℚ)) := [[some 1, some (-1), none]]

/-- C6 witness: on `mGauss` the standard deviation evaluates to 1, the
finite cell holding exactly that value gets pre-threshold weight
`exp(-1)`, and the sentinel cell maps to 0. -/
theorem calculateAdjacencyMatrix_gauss_witness :
    adjStd mGauss ≠ 0 ∧
    Real.exp (-(((1:ℚ) : ℝ) / adjStd mGauss)^2) = Real.exp (-1) ∧
    ((calculateAdjacencyMatrix mGauss (1/2))[0]?.bind fun s => s[2]?) = some 0 := by
  have hfe : finiteEntries mGauss = [1, -1] := rfl
  have hvar : popVar ([1, -1] : List ℚ) = 1 := by
    norm_num [popVar, meanQ]
  have hs : adjStd mGauss = 1 := by
    rw [adjStd, hfe, hvar, Rat.cast_one]
    exact Real.sqrt_one
  have hne : adjStd mGauss ≠ 0 := by rw [hs]; norm_num
  refine ⟨hne, ?_, ?_⟩
  · exact (calculateAdjacencyMatrix_gauss mGauss (1/2) hne).2.2 1
      (by rw [hs, Rat.cast_one])
  · exact (calculateAdjacencyMatrix_gauss mGauss (1/2) hne).1 0 2
      [some 1, some (-1), none] rfl rfl

/-! ### Scaler transform / inverse_transform -/

/-- Modelled from the spec: the scaler classes `NoneScaler`,
`NormalScaler`, `StandardScaler`, `MinMax01Scaler` and `MinMax11Scaler` are
imported from `trafficdl.utils`, which is not among the provided source
files; each variant is represented by its fitted statistics as described in
spec section 4.7. -/
inductive ScalerT where
  | noneT
  | normalT (mx : ℝ)
  | standardT (mean std : ℝ)
  | minmax01T (mn mx : ℝ)
  | minmax11T (mn mx : ℝ)

/-- Modelled from the spec: the statistics under which each variant's
transform is invertible (nonzero maximum magnitude, nonzero standard
deviation, distinct min and max). -/
def scalerValid : ScalerT → Prop
  | ScalerT.noneT => True
  | ScalerT.normalT mx => mx ≠ 0
  | ScalerT.standardT _ std => std ≠ 0
  | ScalerT.minmax01T mn mx => mx ≠ mn
  | ScalerT.minmax11T mn mx => mx ≠ mn

/-- Modelled from the spec: `transform` of each variant - identity, divide
by the maximum, standardize, rescale to `[0,1]`, rescale to `[-1,1]`. -/
noncomputable def scalerTransform : ScalerT → ℝ → ℝ
  | ScalerT.noneT, x => x
  | ScalerT.normalT mx, x => x / mx
  | ScalerT.standardT mean std, x => (x - mean) / std
  | ScalerT.minmax01T mn mx, x => (x - mn) / (mx - mn)
  | ScalerT.minmax11T mn mx, x => 2 * (x - mn) / (mx - mn) - 1

/-- Modelled from the spec: `inverse_transform` of each variant, reversing
the corresponding `transform`. -/
noncomputable def scalerInverse : ScalerT → ℝ → ℝ
  | ScalerT.noneT, x => x
  | ScalerT.normalT mx, x => x * mx
  | ScalerT.standardT mean std, x => x * std + mean
  | ScalerT.minmax01T mn mx, x => x * (mx - mn) + mn
  | ScalerT.minmax11T mn mx, x => (x + 1) / 2 * (mx - mn) + mn

/-- C7: for every scaler variant constructed from valid fitted statistics
and every input value, `inverse_transform (transform v) = v` - in the exact
real model the round trip is the identity (the floating-point
implementation matches it up to rounding). -/
theorem scaler_roundtrip (s : ScalerT) (h : scalerValid s) (x : ℝ) :
    scalerInverse s (scalerTransform s x) = x := by
  cases s with
  | noneT => rfl
  | normalT mx =>
    simp only [scalerValid] at h
    simp only [scalerTransform, scalerInverse]
    field_simp
  | standardT mean std =>
    simp only [scalerValid] at h
    simp only [scalerTransform, scalerInverse]
    field_simp
  | minmax01T mn mx =>
    simp only [scalerValid] at h
    have h' : mx - mn ≠ 0 := sub_ne_zero.mpr h
    simp only [scalerTransform, scalerInverse]
    field_simp
  | minmax11T mn mx =>
    simp only [scalerValid] at h
    have h' : mx - mn ≠ 0 := sub_ne_zero.mpr h
    simp only [scalerTransform, scalerInverse]
    field_simp
    ring

/-- C7 witness: the standardize variant with mean 2, std 3 on input 5. -/
theorem scaler_roundtrip_witness :
    scalerValid (ScalerT.standardT 2 3) ∧
    scalerInverse (ScalerT.standardT 2 3)
      (scalerTransform (ScalerT.standardT 2 3) 5) = 5 := by
  have h : scalerValid (ScalerT.standardT 2 3) := by
    simp only [scalerValid]
    norm_num
  exact ⟨h, scaler_roundtrip (ScalerT.standardT 2 3) h 5⟩

/-! ### LINE embedding scorers and loss (`LINE.py`) -/

/-- The two parameterizations of the LINE model, each holding its embedding
tables (entity index to a `d`-dimensional vector): `LINE_FIRST` a single
table, `LINE_SECOND` a node table and a context table. -/
inductive LineEmbedT (d : ℕ) where
  | firstT (emb : ℕ → Fin d → ℝ)
  | secondT (nodeEmb contextEmb : ℕ → Fin d → ℝ)

/-- `forward`: elementwise product of the two looked-up vectors summed over
the embedding dimension, `(vi * vj).sum(dim=-1)`. -/
noncomputable def lineForward {d : ℕ} : LineEmbedT d → ℕ → ℕ → ℝ
  | LineEmbedT.firstT emb, i, j => ∑ k, emb i k * emb j k
  | LineEmbedT.secondT nodeEmb contextEmb, i, j => ∑ k, nodeEmb i k * contextEmb j k

/-- The logistic sigmoid. -/
noncomputable def sigmoidR (x : ℝ) : ℝ := 1 / (1 + Real.exp (-x))

/-- `F.logsigmoid`. -/
noncomputable def logSigmoid (x : ℝ) : ℝ := Real.log (sigmoidR x)

/-- `LINE.calculate_loss`: for a batch of `(I, J, Neg)` triples,
`-(F.logsigmoid(forward(I, J) * Neg)).mean()`. -/
noncomputable def calculateLoss {d : ℕ} (e : LineEmbedT d)
    (batch : List (ℕ × ℕ × ℝ)) : ℝ :=
  -((batch.map fun t => logSigmoid (lineForward e t.1 t.2.1 * t.2.2)).sum
      / (batch.length : ℝ))

lemma sum_map_neg {α : Type} (l : List α) (f : α → ℝ) :
    (l.map fun a => -f a).sum = -(l.map f).sum := by
  induction l with
  | nil => simp
  | cons a t ih =>
    simp [ih]
    ring

/-- C8: the symmetric (first-order) scorer returns
`dot(embedding[i], embedding[j])` over its single table, the asymmetric
(second-order) scorer `dot(subject_embedding[i], context_embedding[j])`
over its two tables, and for every batch of `(i, j, label)` triples with
labels in `{+1, -1}` the loss is the mean over the batch of
`-log(sigmoid(score * label))`. -/
theorem line_score_and_loss {d : ℕ} (e : LineEmbedT d)
    (batch : List (ℕ × ℕ × ℝ))
    (hlab : ∀ t ∈ batch, t.2.2 = 1 ∨ t.2.2 = -1) :
    (∀ (emb : ℕ → Fin d → ℝ) (i j : ℕ),
      lineForward (LineEmbedT.firstT emb) i j = ∑ k, emb i k * emb j k) ∧
    (∀ (nodeEmb contextEmb : ℕ → Fin d → ℝ) (i j : ℕ),
      lineForward (LineEmbedT.secondT nodeEmb contextEmb) i j
        = ∑ k, nodeEmb i k * contextEmb j k) ∧
    calculateLoss e batch
      = (batch.map fun t =>
            -Real.log (sigmoidR (lineForward e t.1 t.2.1 * t.2.2))).sum
          / (batch.length : ℝ) := by
  refine ⟨fun _ _ _ => rfl, fun _ _ _ _ => rfl, ?_⟩
  rw [calculateLoss]
  rw [show (fun t : ℕ × ℕ × ℝ =>
        -Real.log (sigmoidR (lineForward e t.1 t.2.1 * t.2.2)))
      = fun t => -(logSigmoid (lineForward e t.1 t.2.1 * t.2.2)) from rfl]
  rw [sum_map_neg, neg_div]

/-- A first-order LINE model in dimension 1 whose single table is
constantly 1. -/
noncomputable def lineOneModel : LineEmbedT 1 := LineEmbedT.firstT fun _ _ => (1:ℝ)

/-- C8 witness: a single positive pair `(0, 1, +1)` under a first-order
model in dimension 1. -/
theorem line_score_and_loss_witness :
    (∀ t ∈ ([((0:ℕ), (1:ℕ), (1:ℝ))] : List (ℕ × ℕ × ℝ)),
        t.2.2 = 1 ∨ t.2.2 = -1) ∧
    ((∀ (emb : ℕ → Fin 1 → ℝ) (i j : ℕ),
        lineForward (LineEmbedT.firstT emb) i j = ∑ k, emb i k * emb j k) ∧
     (∀ (nodeEmb contextEmb : ℕ → Fin 1 → ℝ) (i j : ℕ),
        lineForward (LineEmbedT.secondT nodeEmb contextEmb) i j
          = ∑ k, nodeEmb i k * contextEmb j k) ∧
     calculateLoss lineOneModel [((0:ℕ), (1:ℕ), (1:ℝ))]
       = (([((0:ℕ), (1:ℕ), (1:ℝ))] : List (ℕ × ℕ × ℝ)).map fun t =>
            -Real.log (sigmoidR
              (lineForward lineOneModel t.1 t.2.1 * t.2.2))).sum
          / (([((0:ℕ), (1:ℕ), (1:ℝ))] : List (ℕ × ℕ × ℝ)).length : ℝ)) := by
  have hl : ∀ t ∈ ([((0:ℕ), (1:ℕ), (1:ℝ))] : List (ℕ × ℕ × ℝ)),
      t.2.2 = 1 ∨ t.2.2 = -1 := by
    intro t ht
    rw [List.mem_singleton] at ht
    subst ht
    exact Or.inl rfl
  exact ⟨hl, line_score_and_loss lineOneModel _ hl⟩

end TDMT
